import Mathlib

/-!
Verification of the IronRDP capability-set codec: a shallow embedding of
`crates/ironrdp-pdu/src/rdp/capability_sets.rs`.

Modelling conventions:
* A byte buffer is a `List Nat` (each element one byte; writers only ever
  produce values `< 256` because every multi-byte write goes through
  `writeU16`/`writeU32`, which emit `% 256` limbs).
* `ReadCursor` is the remaining suffix of the input list; every source-level
  `ensure_size!(in: src, ...)` check becomes an explicit remaining-length
  test performed before the raw reads, exactly as the macro guards the
  panicking cursor reads; failing the test is the `NotEnoughBytes` error.
* `WriteCursor` is modelled as an accumulating list: `encode` returns the
  bytes written.  The `ensure_size!(in: dst, ...)` capacity checks guard the
  caller-provided buffer and are not failure modes of the values themselves,
  so encoding can fail only where the source can otherwise fail
  (`cast_length!` overflow).
* Rust `u16` fields are `Nat`s; well-formedness (`< 2^16`) is stated
  explicitly where a theorem needs it.
-/

deriving instance DecidableEq for Except

namespace CapSets

/-- Errors surfaced by the codec, mirroring `PduError`: `notEnoughBytes` is
what `ensure_size!` produces, `invalidMessage` is `invalid_message_err!`
with its field and reason strings, `other` covers `cast_length!` overflow. -/
inductive PduError where
  | notEnoughBytes : PduError
  | invalidMessage (field : String) (reason : String) : PduError
  | other (context : String) : PduError
deriving DecidableEq, Repr

/-- Little-endian 16-bit write (`WriteCursor::write_u16`). -/
def writeU16 (v : Nat) : List Nat := [v % 256, v / 256 % 256]

/-- Little-endian 32-bit write (`WriteCursor::write_u32`). -/
def writeU32 (v : Nat) : List Nat :=
  [v % 256, v / 256 % 256, v / 65536 % 256, v / 16777216 % 256]

/-- Raw little-endian 16-bit read (`ReadCursor::read_u16`).  In the source
this read is only reached behind an `ensure_size!` guard; the default values
on too-short lists are never observable. -/
def takeU16 : List Nat → Nat × List Nat
  | b0 :: b1 :: rest => (b0 + 256 * b1, rest)
  | [b0] => (b0, [])
  | [] => (0, [])

/-- Raw little-endian 32-bit read (`ReadCursor::read_u32`), guarded like
`takeU16`. -/
def takeU32 : List Nat → Nat × List Nat
  | b0 :: b1 :: b2 :: b3 :: rest =>
      (b0 + 256 * b1 + 65536 * b2 + 16777216 * b3, rest)
  | other => (0, other)

/-- The `cast_length!(ctx, v)`: fallible narrowing of a `usize` length to the
16-bit wire field; fails cleanly on overflow (spec §7, "numeric overflow on
encode"). -/
def castLength (ctx : String) (v : Nat) : Except PduError Nat :=
  if v < 65536 then .ok v else .error (.other ctx)

def CAPABILITY_SET_TYPE_FIELD_SIZE : Nat := 2
def CAPABILITY_SET_LENGTH_FIELD_SIZE : Nat := 2
def SOURCE_DESCRIPTOR_LENGTH_FIELD_SIZE : Nat := 2
def COMBINED_CAPABILITIES_LENGTH_FIELD_SIZE : Nat := 2
def NUMBER_CAPABILITIES_FIELD_SIZE : Nat := 2
def PADDING_SIZE : Nat := 2
def SESSION_ID_FIELD_SIZE : Nat := 4
def ORIGINATOR_ID_FIELD_SIZE : Nat := 2

/-- The 28-entry discriminant registry `CapabilitySetType` (codes 0x01–0x05,
0x07–0x0a, 0x0c–0x1e). -/
inductive CapabilitySetType where
  | general | bitmap | order | bitmapCache | control
  | windowActivation | pointer | share | colorCache
  | sound | input | font | brush | glyphCache
  | offscreenBitmapCache | bitmapCacheHostSupport | bitmapCacheRev2
  | virtualChannel | drawNineGridCache | drawGdiPlus | rail
  | windowList | desktopComposition | multiFragmentUpdate
  | largePointer | surfaceCommands | bitmapCodecs | frameAcknowledge
deriving DecidableEq, Repr

/-- The `ToPrimitive` direction of the registry: variant → wire code. -/
def CapabilitySetType.toU16 : CapabilitySetType → Nat
  | .general => 0x01
  | .bitmap => 0x02
  | .order => 0x03
  | .bitmapCache => 0x04
  | .control => 0x05
  | .windowActivation => 0x07
  | .pointer => 0x08
  | .share => 0x09
  | .colorCache => 0x0a
  | .sound => 0x0c
  | .input => 0x0d
  | .font => 0x0e
  | .brush => 0x0f
  | .glyphCache => 0x10
  | .offscreenBitmapCache => 0x11
  | .bitmapCacheHostSupport => 0x12
  | .bitmapCacheRev2 => 0x13
  | .virtualChannel => 0x14
  | .drawNineGridCache => 0x15
  | .drawGdiPlus => 0x16
  | .rail => 0x17
  | .windowList => 0x18
  | .desktopComposition => 0x19
  | .multiFragmentUpdate => 0x1a
  | .largePointer => 0x1b
  | .surfaceCommands => 0x1c
  | .bitmapCodecs => 0x1d
  | .frameAcknowledge => 0x1e

/-- The `FromPrimitive` direction of the registry: wire code → variant, `none`
for every unregistered code. -/
def CapabilitySetType.fromU16 (v : Nat) : Option CapabilitySetType :=
  if v = 0x01 then some .general
  else if v = 0x02 then some .bitmap
  else if v = 0x03 then some .order
  else if v = 0x04 then some .bitmapCache
  else if v = 0x05 then some .control
  else if v = 0x07 then some .windowActivation
  else if v = 0x08 then some .pointer
  else if v = 0x09 then some .share
  else if v = 0x0a then some .colorCache
  else if v = 0x0c then some .sound
  else if v = 0x0d then some .input
  else if v = 0x0e then some .font
  else if v = 0x0f then some .brush
  else if v = 0x10 then some .glyphCache
  else if v = 0x11 then some .offscreenBitmapCache
  else if v = 0x12 then some .bitmapCacheHostSupport
  else if v = 0x13 then some .bitmapCacheRev2
  else if v = 0x14 then some .virtualChannel
  else if v = 0x15 then some .drawNineGridCache
  else if v = 0x16 then some .drawGdiPlus
  else if v = 0x17 then some .rail
  else if v = 0x18 then some .windowList
  else if v = 0x19 then some .desktopComposition
  else if v = 0x1a then some .multiFragmentUpdate
  else if v = 0x1b then some .largePointer
  else if v = 0x1c then some .surfaceCommands
  else if v = 0x1d then some .bitmapCodecs
  else if v = 0x1e then some .frameAcknowledge
  else none

/-- The `FontSupportFlags(u16)` from the `font` submodule. -/
structure FontSupportFlags where
  flags : Nat
deriving DecidableEq, Repr

/-- The `Font` capability set: a single `u16` flags field (plus wire padding). -/
structure Font where
  font_support_flags : FontSupportFlags
deriving DecidableEq, Repr

def Font.FIXED_PART_SIZE : Nat := 4

def Font.size (_ : Font) : Nat := Font.FIXED_PART_SIZE

/-- The `Font::encode`: flags then a zero `pad2octets`. -/
def Font.encode (f : Font) : List Nat :=
  writeU16 f.font_support_flags.flags ++ writeU16 0

/-- The `Font::decode`: `ensure_fixed_part_size!` then read flags and padding. -/
def Font.decode (src : List Nat) : Except PduError (Font × List Nat) :=
  if Font.FIXED_PART_SIZE ≤ src.length then
    let (flags, s1) := takeU16 src
    let (_pad2octets, s2) := takeU16 s1
    .ok ({ font_support_flags := ⟨flags⟩ }, s2)
  else .error .notEnoughBytes

/-- The `Control` capability set: four `u16` fields. -/
structure Control where
  control_flags : Nat
  remote_detach_flag : Nat
  control_interest : Nat
  detach_interest : Nat
deriving DecidableEq, Repr

def Control.FIXED_PART_SIZE : Nat := 8

def Control.size (_ : Control) : Nat := Control.FIXED_PART_SIZE

/-- The `Control::new`: the SHOULD defaults from the source. -/
def Control.new : Control :=
  { control_flags := 0x0000
    remote_detach_flag := 0x0000
    control_interest := 0x0002
    detach_interest := 0x0002 }

/-- The `Control::encode`. -/
def Control.encode (c : Control) : List Nat :=
  writeU16 c.control_flags ++ writeU16 c.remote_detach_flag ++
    writeU16 c.control_interest ++ writeU16 c.detach_interest

/-- The `Control::decode`. -/
def Control.decode (src : List Nat) : Except PduError (Control × List Nat) :=
  if Control.FIXED_PART_SIZE ≤ src.length then
    let (control_flags, s1) := takeU16 src
    let (remote_detach_flag, s2) := takeU16 s1
    let (control_interest, s3) := takeU16 s2
    let (detach_interest, s4) := takeU16 s3
    .ok ({ control_flags, remote_detach_flag, control_interest, detach_interest }, s4)
  else .error .notEnoughBytes

/-- The `ColorCache` capability set: one `u16` table-size field (plus padding). -/
structure ColorCache where
  color_cache_table_size : Nat
deriving DecidableEq, Repr

def ColorCache.FIXED_PART_SIZE : Nat := 4

def ColorCache.size (_ : ColorCache) : Nat := ColorCache.FIXED_PART_SIZE

/-- The `ColorCache::new`: default table size 0x0006. -/
def ColorCache.new : ColorCache := { color_cache_table_size := 0x0006 }

/-- The `ColorCache::encode`: table size then a zero `pad2octets`. -/
def ColorCache.encode (cc : ColorCache) : List Nat :=
  writeU16 cc.color_cache_table_size ++ writeU16 0

/-- The `ColorCache::decode`. -/
def ColorCache.decode (src : List Nat) : Except PduError (ColorCache × List Nat) :=
  if ColorCache.FIXED_PART_SIZE ≤ src.length then
    let (color_cache_table_size, s1) := takeU16 src
    let (_pad2octets, s2) := takeU16 s1
    .ok ({ color_cache_table_size }, s2)
  else .error .notEnoughBytes

/-- The `CapabilitySet` tagged union, restricted to the variants whose leaf
codecs are present in the source file: the structured `Font`, `Control` and
`ColorCache` payloads (defined inline in the source) and the eight opaque
passthrough variants whose payload is an uninterpreted byte buffer
(`Vec<u8>`).  The remaining structured variants (`General`, `Bitmap`, …)
live in submodules that are not part of the source tree and whose field
layouts the spec declares out of scope; their registry codes are still
modelled (see `CapabilitySetType` and `leafDispatch`). -/
inductive CapabilitySet where
  | font (capset : Font)
  | control (capset : Control)
  | colorCache (capset : ColorCache)
  | windowActivation (buffer : List Nat)
  | share (buffer : List Nat)
  | bitmapCacheHostSupport (buffer : List Nat)
  | desktopComposition (buffer : List Nat)
  | drawNineGridCache (buffer : List Nat)
  | drawGdiPlus (buffer : List Nat)
  | rail (buffer : List Nat)
  | windowList (buffer : List Nat)
deriving DecidableEq, Repr

def CapabilitySet.FIXED_PART_SIZE : Nat :=
  CAPABILITY_SET_TYPE_FIELD_SIZE + CAPABILITY_SET_LENGTH_FIELD_SIZE

/-- The per-variant payload size: the `match` inside `CapabilitySet::size`
(`capset.size()` for structured variants, `buffer.len()` for opaque ones). -/
def CapabilitySet.payloadSize : CapabilitySet → Nat
  | .font capset => capset.size
  | .control capset => capset.size
  | .colorCache capset => capset.size
  | .windowActivation buffer
  | .share buffer
  | .bitmapCacheHostSupport buffer
  | .desktopComposition buffer
  | .drawNineGridCache buffer
  | .drawGdiPlus buffer
  | .rail buffer
  | .windowList buffer => buffer.length

/-- The `CapabilitySet::size`: header plus payload size. -/
def CapabilitySet.size (c : CapabilitySet) : Nat :=
  CapabilitySet.FIXED_PART_SIZE + c.payloadSize

/-- The wire code `CapabilitySet::encode` writes for each variant. -/
def CapabilitySet.typeCode : CapabilitySet → CapabilitySetType
  | .font _ => .font
  | .control _ => .control
  | .colorCache _ => .colorCache
  | .windowActivation _ => .windowActivation
  | .share _ => .share
  | .bitmapCacheHostSupport _ => .bitmapCacheHostSupport
  | .desktopComposition _ => .desktopComposition
  | .drawNineGridCache _ => .drawNineGridCache
  | .drawGdiPlus _ => .drawGdiPlus
  | .rail _ => .rail
  | .windowList _ => .windowList

/-- The payload bytes `CapabilitySet::encode` emits after the header: the
leaf encoder's output for structured variants, the buffer verbatim
(`write_slice`) for opaque variants. -/
def CapabilitySet.payloadBytes : CapabilitySet → List Nat
  | .font capset => capset.encode
  | .control capset => capset.encode
  | .colorCache capset => capset.encode
  | .windowActivation buffer
  | .share buffer
  | .bitmapCacheHostSupport buffer
  | .desktopComposition buffer
  | .drawNineGridCache buffer
  | .drawGdiPlus buffer
  | .rail buffer
  | .windowList buffer => buffer

/-- The `CapabilitySet::encode`: write the type code, write
`cast_length!("len", payload_size + 4)` as the length field, then the
payload.  Every branch of the source `match` has this exact shape, with the
payload size being `capset.size()` for structured variants and
`buffer.len()` for opaque ones. -/
def CapabilitySet.encode (c : CapabilitySet) : Except PduError (List Nat) :=
  match castLength "len"
      (c.payloadSize + CAPABILITY_SET_TYPE_FIELD_SIZE + CAPABILITY_SET_LENGTH_FIELD_SIZE) with
  | .error e => .error e
  | .ok len => .ok (writeU16 c.typeCode.toU16 ++ writeU16 len ++ c.payloadBytes)

/-- Modelled from the spec: the crate-level `decode` helper
(`crate::decode`, not under the source tree) that `CapabilitySet::decode`
calls on each sliced payload.  Per spec §4.3 step 4 it runs the leaf decoder
selected by the type code over the sub-slice only; no further check on the
sub-slice (such as full consumption) is specified. -/
def decodeBuf {α : Type} (d : List Nat → Except PduError (α × List Nat))
    (buf : List Nat) : Except PduError α :=
  match d buf with
  | .error e => .error e
  | .ok (a, _) => .ok a

/-- The dispatch `match` of `CapabilitySet::decode`, as a function of the
selected type and the sliced payload buffer alone.  Structured variants run
their leaf decoder via `decodeBuf`; opaque variants copy the buffer.  The
structured variants whose leaf modules are absent from the source tree (and
whose layouts the spec declares out of scope) are left abstract as a
designated error; no theorem below reaches those branches. -/
def leafDispatch (t : CapabilitySetType) (buf : List Nat) :
    Except PduError CapabilitySet :=
  match t with
  | .font =>
    match decodeBuf Font.decode buf with
    | .error e => .error e
    | .ok capset => .ok (.font capset)
  | .control =>
    match decodeBuf Control.decode buf with
    | .error e => .error e
    | .ok capset => .ok (.control capset)
  | .colorCache =>
    match decodeBuf ColorCache.decode buf with
    | .error e => .error e
    | .ok capset => .ok (.colorCache capset)
  | .windowActivation => .ok (.windowActivation buf)
  | .share => .ok (.share buf)
  | .bitmapCacheHostSupport => .ok (.bitmapCacheHostSupport buf)
  | .desktopComposition => .ok (.desktopComposition buf)
  | .drawNineGridCache => .ok (.drawNineGridCache buf)
  | .drawGdiPlus => .ok (.drawGdiPlus buf)
  | .rail => .ok (.rail buf)
  | .windowList => .ok (.windowList buf)
  | _ => .error (.other "leaf codec not in source tree")

/-- The `CapabilitySet::decode`: `ensure_fixed_part_size!`, read and validate
the type code (unknown codes fail with `invalid capability set type`), read
the length, reject lengths below the 4-byte header, check that `length - 4`
bytes remain (`ensure_size!`) before slicing, slice exactly that many bytes
and dispatch the leaf decoder on that sub-slice only. -/
def CapabilitySet.decode (src : List Nat) :
    Except PduError (CapabilitySet × List Nat) :=
  if CapabilitySet.FIXED_PART_SIZE ≤ src.length then
    let (rawType, s1) := takeU16 src
    match CapabilitySetType.fromU16 rawType with
    | none => .error (.invalidMessage "capabilitySetType" "invalid capability set type")
    | some capability_set_type =>
      let (length, s2) := takeU16 s1
      if length < CAPABILITY_SET_TYPE_FIELD_SIZE + CAPABILITY_SET_LENGTH_FIELD_SIZE then
        .error (.invalidMessage "len" "invalid capability set length")
      else
        let buffer_length :=
          length - CAPABILITY_SET_TYPE_FIELD_SIZE - CAPABILITY_SET_LENGTH_FIELD_SIZE
        if buffer_length ≤ s2.length then
          match leafDispatch capability_set_type (s2.take buffer_length) with
          | .error e => .error e
          | .ok c => .ok (c, s2.drop buffer_length)
        else .error .notEnoughBytes
  else .error .notEnoughBytes

/-- Constructibility of a record as a Rust value: every `u16` field fits in
16 bits and every `Vec<u8>` element is a byte. -/
def CapabilitySet.wf : CapabilitySet → Prop
  | .font capset => capset.font_support_flags.flags < 65536
  | .control capset =>
      capset.control_flags < 65536 ∧ capset.remote_detach_flag < 65536 ∧
        capset.control_interest < 65536 ∧ capset.detach_interest < 65536
  | .colorCache capset => capset.color_cache_table_size < 65536
  | .windowActivation buffer
  | .share buffer
  | .bitmapCacheHostSupport buffer
  | .desktopComposition buffer
  | .drawNineGridCache buffer
  | .drawGdiPlus buffer
  | .rail buffer
  | .windowList buffer => ∀ b ∈ buffer, b < 256

instance : DecidablePred CapabilitySet.wf := by
  intro c
  cases c <;> simp only [CapabilitySet.wf] <;> infer_instance

/-- Modelled from the spec: `utils::decode_string(bytes, CharacterSet::Ansi,
false)` is not under the source tree.  Per spec §4.4 step 2 the envelope
decoder reads exactly `descriptor_length` bytes, ANSI-decodes them and drops
one trailing byte as the mandatory null terminator; a string is modelled as
its byte list, so decoding is dropping the last byte. -/
def decodeStringAnsi (bytes : List Nat) : Except PduError (List Nat) :=
  .ok bytes.dropLast

/-- Encode a list of capability sets in order (the `for` loop in
`DemandActive::encode`). -/
def encodeSets : List CapabilitySet → Except PduError (List Nat)
  | [] => .ok []
  | c :: cs =>
    match c.encode with
    | .error e => .error e
    | .ok bs =>
      match encodeSets cs with
      | .error e => .error e
      | .ok rest => .ok (bs ++ rest)

/-- Decode exactly `count` capability sets in sequence (the `for` loop in
`DemandActive::decode`). -/
def decodeSets : Nat → List Nat → Except PduError (List CapabilitySet × List Nat)
  | 0, src => .ok ([], src)
  | n + 1, src =>
    match CapabilitySet.decode src with
    | .error e => .error e
    | .ok (c, src1) =>
      match decodeSets n src1 with
      | .error e => .error e
      | .ok (cs, src2) => .ok (c :: cs, src2)

/-- The `DemandActive`: descriptor string (modelled as its byte list) plus the
ordered list of capability sets. -/
structure DemandActive where
  source_descriptor : List Nat
  capability_sets : List CapabilitySet
deriving DecidableEq, Repr

def DemandActive.FIXED_PART_SIZE : Nat :=
  SOURCE_DESCRIPTOR_LENGTH_FIELD_SIZE + COMBINED_CAPABILITIES_LENGTH_FIELD_SIZE

/-- The `DemandActive::size`. -/
def DemandActive.size (p : DemandActive) : Nat :=
  DemandActive.FIXED_PART_SIZE + p.source_descriptor.length + 1 +
    NUMBER_CAPABILITIES_FIELD_SIZE + PADDING_SIZE +
    (p.capability_sets.map CapabilitySet.size).sum

/-- The `DemandActive::encode`: descriptor length (text + 1 terminator),
combined length (count field + padding + Σ record sizes), descriptor bytes,
the single 0x00 terminator, record count, 2 zero padding bytes, then each
record in order. -/
def DemandActive.encode (p : DemandActive) : Except PduError (List Nat) :=
  match castLength "sourceDescLen" (p.source_descriptor.length + 1) with
  | .error e => .error e
  | .ok dlen =>
    match castLength "combinedLen" ((p.capability_sets.map CapabilitySet.size).sum +
        NUMBER_CAPABILITIES_FIELD_SIZE + PADDING_SIZE) with
    | .error e => .error e
    | .ok clen =>
      match castLength "len" p.capability_sets.length with
      | .error e => .error e
      | .ok cnt =>
        match encodeSets p.capability_sets with
        | .error e => .error e
        | .ok sets =>
          .ok (writeU16 dlen ++ writeU16 clen ++ p.source_descriptor ++ [0] ++
            writeU16 cnt ++ [0, 0] ++ sets)

/-- The `DemandActive::decode`: read descriptor length and the informational
combined length, check then slice exactly `descriptor_length` bytes and
ANSI-decode them, read count and padding, then decode exactly `count`
records. -/
def DemandActive.decode (src : List Nat) :
    Except PduError (DemandActive × List Nat) :=
  if DemandActive.FIXED_PART_SIZE ≤ src.length then
    let (source_descriptor_length, s1) := takeU16 src
    let (_combined_capabilities_length, s2) := takeU16 s1
    if source_descriptor_length ≤ s2.length then
      match decodeStringAnsi (s2.take source_descriptor_length) with
      | .error e => .error e
      | .ok source_descriptor =>
        let s3 := s2.drop source_descriptor_length
        if 2 + 2 ≤ s3.length then
          let (capability_sets_count, s4) := takeU16 s3
          let (_padding, s5) := takeU16 s4
          match decodeSets capability_sets_count s5 with
          | .error e => .error e
          | .ok (capability_sets, s6) => .ok ({ source_descriptor, capability_sets }, s6)
        else .error .notEnoughBytes
    else .error .notEnoughBytes
  else .error .notEnoughBytes

/-- The `ServerDemandActive`: the inner PDU plus a trailing ignored 32-bit
session id. -/
structure ServerDemandActive where
  pdu : DemandActive
deriving DecidableEq, Repr

def ServerDemandActive.FIXED_PART_SIZE : Nat := SESSION_ID_FIELD_SIZE

/-- The `ServerDemandActive::size`. -/
def ServerDemandActive.size (s : ServerDemandActive) : Nat :=
  ServerDemandActive.FIXED_PART_SIZE + s.pdu.size

/-- The `ServerDemandActive::encode`: inner PDU then a zero u32 (ignored by the
client). -/
def ServerDemandActive.encode (s : ServerDemandActive) :
    Except PduError (List Nat) :=
  match s.pdu.encode with
  | .error e => .error e
  | .ok pdu => .ok (pdu ++ writeU32 0)

/-- The `ServerDemandActive::decode`: inner PDU, then read and discard the
session id. -/
def ServerDemandActive.decode (src : List Nat) :
    Except PduError (ServerDemandActive × List Nat) :=
  match DemandActive.decode src with
  | .error e => .error e
  | .ok (pdu, s1) =>
    if 4 ≤ s1.length then
      let (_session_id, s2) := takeU32 s1
      .ok ({ pdu }, s2)
    else .error .notEnoughBytes

/-- The `ClientConfirmActive`: a 16-bit originator id ahead of the inner PDU. -/
structure ClientConfirmActive where
  originator_id : Nat
  pdu : DemandActive
deriving DecidableEq, Repr

def ClientConfirmActive.FIXED_PART_SIZE : Nat := ORIGINATOR_ID_FIELD_SIZE

/-- The `ClientConfirmActive::size`. -/
def ClientConfirmActive.size (c : ClientConfirmActive) : Nat :=
  ClientConfirmActive.FIXED_PART_SIZE + c.pdu.size

/-- The `ClientConfirmActive::encode`: originator id then the inner PDU. -/
def ClientConfirmActive.encode (c : ClientConfirmActive) :
    Except PduError (List Nat) :=
  match c.pdu.encode with
  | .error e => .error e
  | .ok pdu => .ok (writeU16 c.originator_id ++ pdu)

/-- The `ClientConfirmActive::decode`. -/
def ClientConfirmActive.decode (src : List Nat) :
    Except PduError (ClientConfirmActive × List Nat) :=
  if ClientConfirmActive.FIXED_PART_SIZE ≤ src.length then
    let (originator_id, s1) := takeU16 src
    match DemandActive.decode s1 with
    | .error e => .error e
    | .ok (pdu, s2) => .ok ({ originator_id, pdu }, s2)
  else .error .notEnoughBytes

end CapSets

namespace CapSets

theorem takeU16_writeU16 (v : Nat) (rest : List Nat) (h : v < 65536) :
    takeU16 (writeU16 v ++ rest) = (v, rest) := by
  have hv : v % 256 + 256 * (v / 256 % 256) = v := by omega
  simp [writeU16, takeU16, hv]

theorem fromU16_toU16 (t : CapabilitySetType) :
    CapabilitySetType.fromU16 t.toU16 = some t := by
  cases t <;> rfl

theorem toU16_lt (t : CapabilitySetType) : t.toU16 < 65536 := by
  cases t <;> simp [CapabilitySetType.toU16]

theorem capSet_decode_append (c : Nat) (t : CapabilitySetType) (L : Nat)
    (payload rest : List Nat) (hc : c < 65536)
    (ht : CapabilitySetType.fromU16 c = some t)
    (h4 : 4 ≤ L) (hL : L < 65536) (hp : payload.length = L - 4) :
    CapabilitySet.decode (writeU16 c ++ writeU16 L ++ payload ++ rest) =
      match leafDispatch t payload with
      | .error e => .error e
      | .ok r => .ok (r, rest) := by
  have e1 : takeU16 (writeU16 c ++ (writeU16 L ++ (payload ++ rest)))
      = (c, writeU16 L ++ (payload ++ rest)) := takeU16_writeU16 _ _ hc
  have e2 : takeU16 (writeU16 L ++ (payload ++ rest)) = (L, payload ++ rest) :=
    takeU16_writeU16 _ _ hL
  have hlen4 : CapabilitySet.FIXED_PART_SIZE
      ≤ (writeU16 c ++ (writeU16 L ++ (payload ++ rest))).length := by
    simp [writeU16, CapabilitySet.FIXED_PART_SIZE, CAPABILITY_SET_TYPE_FIELD_SIZE,
      CAPABILITY_SET_LENGTH_FIELD_SIZE]
  have hnotlt : ¬ L < CAPABILITY_SET_TYPE_FIELD_SIZE + CAPABILITY_SET_LENGTH_FIELD_SIZE := by
    simp only [CAPABILITY_SET_TYPE_FIELD_SIZE, CAPABILITY_SET_LENGTH_FIELD_SIZE]
    omega
  have hplen : L - CAPABILITY_SET_TYPE_FIELD_SIZE - CAPABILITY_SET_LENGTH_FIELD_SIZE
      = payload.length := by
    simp only [CAPABILITY_SET_TYPE_FIELD_SIZE, CAPABILITY_SET_LENGTH_FIELD_SIZE]
    omega
  have hbuf : L - CAPABILITY_SET_TYPE_FIELD_SIZE - CAPABILITY_SET_LENGTH_FIELD_SIZE
      ≤ (payload ++ rest).length := by
    rw [hplen]
    simp
  rw [List.append_assoc, List.append_assoc]
  simp only [CapabilitySet.decode]
  rw [if_pos hlen4, e1]
  simp only [ht]
  rw [e2]
  simp only [if_neg hnotlt, if_pos hbuf, hplen, List.take_left, List.drop_left]
  rw [if_pos (by simp)]

end CapSets

namespace CapSets

theorem encode_ok_iff (r : CapabilitySet) (bs : List Nat) :
    r.encode = .ok bs ↔
      r.payloadSize + 4 < 65536 ∧
        bs = writeU16 r.typeCode.toU16 ++ writeU16 (r.payloadSize + 4) ++ r.payloadBytes := by
  have h24 : r.payloadSize + CAPABILITY_SET_TYPE_FIELD_SIZE + CAPABILITY_SET_LENGTH_FIELD_SIZE
      = r.payloadSize + 4 := by
    simp only [CAPABILITY_SET_TYPE_FIELD_SIZE, CAPABILITY_SET_LENGTH_FIELD_SIZE]
  simp only [CapabilitySet.encode, castLength, h24]
  split_ifs with h
  · simp only [Except.ok.injEq]
    constructor
    · intro he
      exact ⟨h, he.symm⟩
    · intro ⟨_, he⟩
      exact he.symm
  · simp only [reduceCtorEq, false_iff, not_and]
    intro hcon
    exact absurd hcon h

theorem payloadBytes_length (r : CapabilitySet) :
    r.payloadBytes.length = r.payloadSize := by
  cases r <;>
    simp [CapabilitySet.payloadBytes, CapabilitySet.payloadSize, Font.encode,
      Control.encode, ColorCache.encode, Font.size, Control.size, ColorCache.size,
      writeU16, Font.FIXED_PART_SIZE, Control.FIXED_PART_SIZE, ColorCache.FIXED_PART_SIZE]

theorem font_decode_encode (f : Font) (h : f.font_support_flags.flags < 65536) :
    Font.decode f.encode = .ok (f, []) := by
  simp only [Font.encode, Font.decode]
  rw [if_pos (by simp [writeU16, Font.FIXED_PART_SIZE])]
  rw [takeU16_writeU16 _ _ h]
  simp [takeU16, writeU16]

theorem takeU16_writeU16_nil (v : Nat) (h : v < 65536) :
    takeU16 (writeU16 v) = (v, []) := by
  have hv : v % 256 + 256 * (v / 256 % 256) = v := by omega
  simp [writeU16, takeU16, hv]

theorem control_decode_encode (c : Control)
    (h1 : c.control_flags < 65536) (h2 : c.remote_detach_flag < 65536)
    (h3 : c.control_interest < 65536) (h4 : c.detach_interest < 65536) :
    Control.decode c.encode = .ok (c, []) := by
  simp only [Control.encode, Control.decode, List.append_assoc]
  rw [if_pos (by simp [writeU16, Control.FIXED_PART_SIZE])]
  simp only [takeU16_writeU16 _ _ h1, takeU16_writeU16 _ _ h2, takeU16_writeU16 _ _ h3,
    takeU16_writeU16_nil _ h4]

theorem colorCache_decode_encode (cc : ColorCache)
    (h : cc.color_cache_table_size < 65536) :
    ColorCache.decode cc.encode = .ok (cc, []) := by
  simp only [ColorCache.encode, ColorCache.decode]
  rw [if_pos (by simp [writeU16, ColorCache.FIXED_PART_SIZE])]
  rw [takeU16_writeU16 _ _ h]
  simp [takeU16, writeU16]

theorem leafDispatch_payload (r : CapabilitySet) (hwf : r.wf) :
    leafDispatch r.typeCode r.payloadBytes = .ok r := by
  cases r with
  | font f =>
    have h : f.font_support_flags.flags < 65536 := hwf
    simp [CapabilitySet.typeCode, CapabilitySet.payloadBytes, leafDispatch, decodeBuf,
      font_decode_encode f h]
  | control c =>
    obtain ⟨h1, h2, h3, h4⟩ := hwf
    simp [CapabilitySet.typeCode, CapabilitySet.payloadBytes, leafDispatch, decodeBuf,
      control_decode_encode c h1 h2 h3 h4]
  | colorCache cc =>
    have h : cc.color_cache_table_size < 65536 := hwf
    simp [CapabilitySet.typeCode, CapabilitySet.payloadBytes, leafDispatch, decodeBuf,
      colorCache_decode_encode cc h]
  | windowActivation b => rfl
  | share b => rfl
  | bitmapCacheHostSupport b => rfl
  | desktopComposition b => rfl
  | drawNineGridCache b => rfl
  | drawGdiPlus b => rfl
  | rail b => rfl
  | windowList b => rfl

end CapSets

namespace CapSets

theorem decode_encode_roundtrip (r : CapabilitySet) (bs : List Nat) (hwf : r.wf)
    (he : r.encode = .ok bs) : CapabilitySet.decode bs = .ok (r, []) := by
  rw [encode_ok_iff] at he
  obtain ⟨hlt, rfl⟩ := he
  have hA := capSet_decode_append r.typeCode.toU16 r.typeCode (r.payloadSize + 4)
    r.payloadBytes [] (toU16_lt _) (fromU16_toU16 _) (by omega) hlt
    (by rw [payloadBytes_length]; omega)
  rw [List.append_nil] at hA
  rw [hA, leafDispatch_payload r hwf]

theorem capSet_encode_length (r : CapabilitySet) (bs : List Nat)
    (he : r.encode = .ok bs) : bs.length = r.size := by
  rw [encode_ok_iff] at he
  obtain ⟨h, rfl⟩ := he
  simp [writeU16, CapabilitySet.size, CapabilitySet.FIXED_PART_SIZE,
    CAPABILITY_SET_TYPE_FIELD_SIZE, CAPABILITY_SET_LENGTH_FIELD_SIZE, payloadBytes_length]
  omega

theorem encodeSets_length (cs : List CapabilitySet) (bs : List Nat)
    (he : encodeSets cs = .ok bs) : bs.length = (cs.map CapabilitySet.size).sum := by
  induction cs generalizing bs with
  | nil =>
    simp only [encodeSets, Except.ok.injEq] at he
    simp [← he]
  | cons c cs ih =>
    simp only [encodeSets] at he
    cases h1 : c.encode with
    | error e => rw [h1] at he; exact absurd he (by simp)
    | ok b =>
      rw [h1] at he
      cases h2 : encodeSets cs with
      | error e => rw [h2] at he; exact absurd he (by simp)
      | ok rest =>
        rw [h2] at he
        simp only [Except.ok.injEq] at he
        subst he
        simp [capSet_encode_length c b h1, ih rest h2]

end CapSets

namespace CapSets

/-- A wire code is registered exactly when it lies in 0x01–0x05, 0x07–0x0a
or 0x0c–0x1e. -/
def registeredCode (c : Nat) : Prop :=
  (0x01 ≤ c ∧ c ≤ 0x05) ∨ (0x07 ≤ c ∧ c ≤ 0x0a) ∨ (0x0c ≤ c ∧ c ≤ 0x1e)

instance : DecidablePred registeredCode := by
  intro c
  unfold registeredCode
  infer_instance

theorem fromU16_eq_none (c : Nat) (h : ¬ registeredCode c) :
    CapabilitySetType.fromU16 c = none := by
  unfold registeredCode at h
  simp only [CapabilitySetType.fromU16]
  repeat rw [if_neg (by omega)]

theorem capSet_decode_unknown_type (c : Nat) (rest : List Nat) (hc : c < 65536)
    (h : ¬ registeredCode c) (hr : 2 ≤ rest.length) :
    CapabilitySet.decode (writeU16 c ++ rest) =
      .error (.invalidMessage "capabilitySetType" "invalid capability set type") := by
  simp only [CapabilitySet.decode]
  rw [if_pos (by simp [writeU16, CapabilitySet.FIXED_PART_SIZE,
    CAPABILITY_SET_TYPE_FIELD_SIZE, CAPABILITY_SET_LENGTH_FIELD_SIZE]; omega)]
  rw [takeU16_writeU16 _ _ hc]
  simp only [fromU16_eq_none c h]

theorem capSet_decode_invalid_length (c : Nat) (t : CapabilitySetType) (L : Nat)
    (rest : List Nat) (hc : c < 65536) (ht : CapabilitySetType.fromU16 c = some t)
    (hlt : L < 4) :
    CapabilitySet.decode (writeU16 c ++ writeU16 L ++ rest) =
      .error (.invalidMessage "len" "invalid capability set length") := by
  have hL : L < 65536 := by omega
  simp only [CapabilitySet.decode, List.append_assoc]
  rw [if_pos (by simp [writeU16, CapabilitySet.FIXED_PART_SIZE,
    CAPABILITY_SET_TYPE_FIELD_SIZE, CAPABILITY_SET_LENGTH_FIELD_SIZE])]
  rw [takeU16_writeU16 _ _ hc]
  simp only [ht]
  rw [takeU16_writeU16 _ _ hL]
  rw [if_pos (by simp only [CAPABILITY_SET_TYPE_FIELD_SIZE,
    CAPABILITY_SET_LENGTH_FIELD_SIZE]; omega)]

theorem capSet_decode_truncated (c : Nat) (t : CapabilitySetType) (L : Nat)
    (rest : List Nat) (hc : c < 65536) (ht : CapabilitySetType.fromU16 c = some t)
    (h4 : 4 ≤ L) (hL : L < 65536) (hshort : rest.length < L - 4) :
    CapabilitySet.decode (writeU16 c ++ writeU16 L ++ rest) =
      .error .notEnoughBytes := by
  simp only [CapabilitySet.decode, List.append_assoc]
  rw [if_pos (by simp [writeU16, CapabilitySet.FIXED_PART_SIZE,
    CAPABILITY_SET_TYPE_FIELD_SIZE, CAPABILITY_SET_LENGTH_FIELD_SIZE])]
  rw [takeU16_writeU16 _ _ hc]
  simp only [ht]
  rw [takeU16_writeU16 _ _ hL]
  rw [if_neg (by simp only [CAPABILITY_SET_TYPE_FIELD_SIZE,
    CAPABILITY_SET_LENGTH_FIELD_SIZE]; omega)]
  rw [if_neg (by simp only [CAPABILITY_SET_TYPE_FIELD_SIZE,
    CAPABILITY_SET_LENGTH_FIELD_SIZE]; omega)]

end CapSets

namespace CapSets

theorem demandActive_encode_ok_iff (p : DemandActive) (bs : List Nat) :
    p.encode = .ok bs ↔
      p.source_descriptor.length + 1 < 65536 ∧
      (p.capability_sets.map CapabilitySet.size).sum + 2 + 2 < 65536 ∧
      p.capability_sets.length < 65536 ∧
      ∃ sets, encodeSets p.capability_sets = .ok sets ∧
        bs = writeU16 (p.source_descriptor.length + 1) ++
          writeU16 ((p.capability_sets.map CapabilitySet.size).sum + 2 + 2) ++
          p.source_descriptor ++ [0] ++
          writeU16 p.capability_sets.length ++ [0, 0] ++ sets := by
  simp only [DemandActive.encode, castLength, NUMBER_CAPABILITIES_FIELD_SIZE, PADDING_SIZE]
  split_ifs with h1 h2 h3
  · cases hE : encodeSets p.capability_sets with
    | error e => simp [hE]
    | ok sets =>
      simp only [hE, Except.ok.injEq, h1, h2, h3, true_and]
      constructor
      · intro he
        exact ⟨sets, rfl, he.symm⟩
      · rintro ⟨sets', hs, rfl⟩
        cases hs
        rfl
  all_goals
    simp only [reduceCtorEq, false_iff]
    rintro ⟨hA, hB, hC, -⟩
    tauto

theorem demandActive_encode_length (p : DemandActive) (bs : List Nat)
    (he : p.encode = .ok bs) : bs.length = p.size := by
  rw [demandActive_encode_ok_iff] at he
  obtain ⟨_, _, _, sets, hs, rfl⟩ := he
  have := encodeSets_length _ _ hs
  simp [writeU16, DemandActive.size, DemandActive.FIXED_PART_SIZE,
    SOURCE_DESCRIPTOR_LENGTH_FIELD_SIZE, COMBINED_CAPABILITIES_LENGTH_FIELD_SIZE,
    NUMBER_CAPABILITIES_FIELD_SIZE, PADDING_SIZE, this]
  omega

theorem serverDemandActive_encode_length (s : ServerDemandActive) (bs : List Nat)
    (he : s.encode = .ok bs) : bs.length = s.size := by
  simp only [ServerDemandActive.encode] at he
  cases hP : s.pdu.encode with
  | error e => rw [hP] at he; exact absurd he (by simp)
  | ok pdu =>
    rw [hP] at he
    simp only [Except.ok.injEq] at he
    subst he
    have := demandActive_encode_length _ _ hP
    simp [writeU32, ServerDemandActive.size, ServerDemandActive.FIXED_PART_SIZE,
      SESSION_ID_FIELD_SIZE, this]
    omega

theorem clientConfirmActive_encode_length (c : ClientConfirmActive) (bs : List Nat)
    (he : c.encode = .ok bs) : bs.length = c.size := by
  simp only [ClientConfirmActive.encode] at he
  cases hP : c.pdu.encode with
  | error e => rw [hP] at he; exact absurd he (by simp)
  | ok pdu =>
    rw [hP] at he
    simp only [Except.ok.injEq] at he
    subst he
    have := demandActive_encode_length _ _ hP
    simp [writeU16, ClientConfirmActive.size, ClientConfirmActive.FIXED_PART_SIZE,
      ORIGINATOR_ID_FIELD_SIZE, this]
    omega

end CapSets

namespace CapSets

/-- The tail of `DemandActive::decode` after the descriptor has been read
and decoded (proof-structuring helper; `descriptor` is the already-decoded
string, `s3` the bytes after the descriptor slice). -/
def decodeTail (descriptor : List Nat) (s3 : List Nat) :
    Except PduError (DemandActive × List Nat) :=
  if 2 + 2 ≤ s3.length then
    let (capability_sets_count, s4) := takeU16 s3
    let (_padding, s5) := takeU16 s4
    match decodeSets capability_sets_count s5 with
    | .error e => .error e
    | .ok (capability_sets, s6) =>
        .ok ({ source_descriptor := descriptor, capability_sets }, s6)
  else .error .notEnoughBytes

theorem demandActive_decode_append (dlen clen : Nat) (desc tail : List Nat)
    (h1 : dlen < 65536) (h2 : clen < 65536) (hd : desc.length = dlen) :
    DemandActive.decode (writeU16 dlen ++ writeU16 clen ++ desc ++ tail) =
      decodeTail desc.dropLast tail := by
  subst hd
  simp only [DemandActive.decode, List.append_assoc]
  rw [if_pos (by simp [writeU16, DemandActive.FIXED_PART_SIZE,
    SOURCE_DESCRIPTOR_LENGTH_FIELD_SIZE, COMBINED_CAPABILITIES_LENGTH_FIELD_SIZE])]
  rw [takeU16_writeU16 _ _ h1]
  rw [takeU16_writeU16 _ _ h2]
  rw [if_pos (by simp)]
  rw [List.take_left, List.drop_left]
  simp only [decodeStringAnsi, decodeTail]

theorem decodeTail_descriptor (d t : List Nat) (pdu : DemandActive) (rem : List Nat)
    (h : decodeTail d t = .ok (pdu, rem)) : pdu.source_descriptor = d := by
  simp only [decodeTail] at h
  split_ifs at h
  · rcases hT : takeU16 t with ⟨count, s4⟩
    rw [hT] at h
    rcases hT2 : takeU16 s4 with ⟨pad, s5⟩
    rw [hT2] at h
    cases hD : decodeSets count s5 with
    | error e => rw [hD] at h; exact absurd h (by simp)
    | ok pr =>
      rcases pr with ⟨sets, s6⟩
      rw [hD] at h
      simp only [Except.ok.injEq, Prod.mk.injEq] at h
      obtain ⟨hp, -⟩ := h
      rw [← hp]

end CapSets

namespace CapSets

/-- Claim C1: for every constructible `CapabilitySet` record `r`, decoding
the bytes produced by encoding `r` yields a record equal to `r` (and
nothing of the input is left over); in particular for the opaque
passthrough variants the carried byte blob is preserved exactly. -/
theorem capabilitySet_encode_decode_roundtrip (r : CapabilitySet) (bs : List Nat)
    (hwf : r.wf) (he : r.encode = .ok bs) :
    CapabilitySet.decode bs = .ok (r, []) :=
  decode_encode_roundtrip r bs hwf he

/-- Witness for C1 at the opaque `WindowActivation` record with blob
`[1, 2, 3]`. -/
theorem capabilitySet_encode_decode_roundtrip_witness :
    CapabilitySet.wf (.windowActivation [1, 2, 3]) ∧
      CapabilitySet.decode [7, 0, 7, 0, 1, 2, 3] = .ok (.windowActivation [1, 2, 3], []) :=
  ⟨by decide, capabilitySet_encode_decode_roundtrip (.windowActivation [1, 2, 3])
    [7, 0, 7, 0, 1, 2, 3] (by decide) (by decide)⟩

/-- Claim C2: when the declared record length exceeds the header size plus
the bytes remaining after the header, `CapabilitySet::decode` fails with the
truncated-input (`NotEnoughBytes`) error; the bound check happens before the
payload slice is taken (in this functional model no byte past the available
span is ever inspected). -/
theorem capabilitySet_decode_truncation_rejected (c : Nat) (t : CapabilitySetType)
    (L : Nat) (rest : List Nat) (hc : c < 65536)
    (ht : CapabilitySetType.fromU16 c = some t) (h4 : 4 ≤ L) (hL : L < 65536)
    (hshort : rest.length < L - 4) :
    CapabilitySet.decode (writeU16 c ++ writeU16 L ++ rest) = .error .notEnoughBytes :=
  capSet_decode_truncated c t L rest hc ht h4 hL hshort

/-- Witness for C2: a record declaring length 20 with only 10 bytes
available after the header. -/
theorem capabilitySet_decode_truncation_rejected_witness :
    CapabilitySet.decode (writeU16 0x0e ++ writeU16 20 ++ List.replicate 10 0) =
      .error .notEnoughBytes :=
  capabilitySet_decode_truncation_rejected 0x0e .font 20 (List.replicate 10 0)
    (by decide) (by decide) (by decide) (by decide) (by decide)

/-- Claim C3: every input whose 16-bit type code is not one of the 28
registered codes (0x01–0x05, 0x07–0x0a, 0x0c–0x1e) fails decode with the
unrecognized-capability-type error; no opaque fallback is ever constructed. -/
theorem capabilitySet_decode_unknown_code (c : Nat) (rest : List Nat)
    (hc : c < 65536) (h : ¬ registeredCode c) (hr : 2 ≤ rest.length) :
    CapabilitySet.decode (writeU16 c ++ rest) =
      .error (.invalidMessage "capabilitySetType" "invalid capability set type") :=
  capSet_decode_unknown_type c rest hc h hr

/-- Witness for C3 at the unregistered codes 0x1f, 0x06 and 0x0b. -/
theorem capabilitySet_decode_unknown_code_witness :
    (CapabilitySet.decode (writeU16 0x1f ++ [8, 0]) =
      .error (.invalidMessage "capabilitySetType" "invalid capability set type")) ∧
    (CapabilitySet.decode (writeU16 0x06 ++ [8, 0]) =
      .error (.invalidMessage "capabilitySetType" "invalid capability set type")) ∧
    (CapabilitySet.decode (writeU16 0x0b ++ [8, 0]) =
      .error (.invalidMessage "capabilitySetType" "invalid capability set type")) :=
  ⟨capabilitySet_decode_unknown_code 0x1f [8, 0] (by decide) (by decide) (by decide),
   capabilitySet_decode_unknown_code 0x06 [8, 0] (by decide) (by decide) (by decide),
   capabilitySet_decode_unknown_code 0x0b [8, 0] (by decide) (by decide) (by decide)⟩

/-- Claim C4: whenever encoding a record succeeds, the 16-bit length field
in the emitted header (bytes 2 and 3) is exactly the little-endian encoding
of `4 + payload.size()`, recomputed from the payload value, and that value
fits in 16 bits. -/
theorem capabilitySet_header_length_honest (r : CapabilitySet) (bs : List Nat)
    (he : r.encode = .ok bs) :
    (bs.drop 2).take 2 = writeU16 (4 + r.payloadSize) ∧ 4 + r.payloadSize < 65536 := by
  rw [encode_ok_iff] at he
  obtain ⟨h, rfl⟩ := he
  refine ⟨?_, by omega⟩
  rw [Nat.add_comm 4 r.payloadSize]
  simp [writeU16]

/-- Witness for C4 at the Font record with flags 1. -/
theorem capabilitySet_header_length_honest_witness :
    (([14, 0, 8, 0, 1, 0, 0, 0] : List Nat).drop 2).take 2 =
        writeU16 (4 + CapabilitySet.payloadSize (.font ⟨⟨1⟩⟩)) ∧
      4 + CapabilitySet.payloadSize (.font ⟨⟨1⟩⟩) < 65536 :=
  capabilitySet_header_length_honest (.font ⟨⟨1⟩⟩) [14, 0, 8, 0, 1, 0, 0, 0] (by decide)

/-- Claim C5: for every record and every envelope value on which encode
succeeds, the number of bytes written equals `size()` exactly. -/
theorem encode_length_eq_size :
    (∀ (r : CapabilitySet) (bs : List Nat), r.encode = .ok bs → bs.length = r.size) ∧
    (∀ (p : DemandActive) (bs : List Nat), p.encode = .ok bs → bs.length = p.size) ∧
    (∀ (s : ServerDemandActive) (bs : List Nat), s.encode = .ok bs → bs.length = s.size) ∧
    (∀ (c : ClientConfirmActive) (bs : List Nat), c.encode = .ok bs → bs.length = c.size) :=
  ⟨capSet_encode_length, demandActive_encode_length, serverDemandActive_encode_length,
    clientConfirmActive_encode_length⟩

/-- Witness for C5 at one record and the three envelope forms. -/
theorem encode_length_eq_size_witness :
    ([7, 0, 7, 0, 1, 2, 3] : List Nat).length = CapabilitySet.size (.windowActivation [1, 2, 3]) ∧
    ([2, 0, 12, 0, 65, 0, 1, 0, 0, 0, 14, 0, 8, 0, 1, 0, 0, 0] : List Nat).length =
      DemandActive.size ⟨[65], [.font ⟨⟨1⟩⟩]⟩ ∧
    ([2, 0, 12, 0, 65, 0, 1, 0, 0, 0, 14, 0, 8, 0, 1, 0, 0, 0, 0, 0, 0, 0] : List Nat).length =
      ServerDemandActive.size ⟨⟨[65], [.font ⟨⟨1⟩⟩]⟩⟩ ∧
    ([234, 3, 2, 0, 12, 0, 65, 0, 1, 0, 0, 0, 14, 0, 8, 0, 1, 0, 0, 0] : List Nat).length =
      ClientConfirmActive.size ⟨0x03ea, ⟨[65], [.font ⟨⟨1⟩⟩]⟩⟩ :=
  ⟨encode_length_eq_size.1 (.windowActivation [1, 2, 3]) _ (by decide),
   encode_length_eq_size.2.1 ⟨[65], [.font ⟨⟨1⟩⟩]⟩ _ (by decide),
   encode_length_eq_size.2.2.1 ⟨⟨[65], [.font ⟨⟨1⟩⟩]⟩⟩ _ (by decide),
   encode_length_eq_size.2.2.2 ⟨0x03ea, ⟨[65], [.font ⟨⟨1⟩⟩]⟩⟩ _ (by decide)⟩

end CapSets

namespace CapSets

/-- Counterexample to C6 as stated: the 12-byte input `0E 00 0C 00 01 00 00
00 AA BB CC DD` declares a Font record of length 12 (payload 8), twice the
Font payload size of 4; decode nevertheless succeeds, while the Font leaf
decoder consumes only 4 of the 8 sliced payload bytes and leaves
`AA BB CC DD` unconsumed inside the sub-slice. -/
theorem capabilitySet_decode_overlong_structured_succeeds :
    CapabilitySet.decode [0x0e, 0, 12, 0, 1, 0, 0, 0, 0xAA, 0xBB, 0xCC, 0xDD] =
      .ok (.font ⟨⟨1⟩⟩, []) ∧
    Font.decode [1, 0, 0, 0, 0xAA, 0xBB, 0xCC, 0xDD] =
      .ok (⟨⟨1⟩⟩, [0xAA, 0xBB, 0xCC, 0xDD]) := by
  decide

/-- Claim C6 (amended): the leaf decoder is handed exactly the
`declared_length - 4` byte sub-slice — the result depends only on that
sub-slice, never on the bytes beyond it — and the outer decode consumes
exactly those bytes, returning precisely the remainder after the sub-slice;
however, a successful decode does not require the leaf decoder to consume
the whole sub-slice, so a structured record whose declared length exceeds
the variant's actual payload size still decodes successfully (the extra
declared-payload bytes are skipped). -/
theorem capabilitySet_decode_payload_containment (c : Nat) (t : CapabilitySetType)
    (L : Nat) (payload rest : List Nat) (hc : c < 65536)
    (ht : CapabilitySetType.fromU16 c = some t) (h4 : 4 ≤ L) (hL : L < 65536)
    (hp : payload.length = L - 4) :
    CapabilitySet.decode (writeU16 c ++ writeU16 L ++ payload ++ rest) =
      match leafDispatch t payload with
      | .error e => .error e
      | .ok r => .ok (r, rest) :=
  capSet_decode_append c t L payload rest hc ht h4 hL hp

/-- Witness for the amended C6 at a ColorCache record followed by two extra
bytes of the outer buffer. -/
theorem capabilitySet_decode_payload_containment_witness :
    CapabilitySet.decode (writeU16 0x0a ++ writeU16 8 ++ [6, 0, 0, 0] ++ [9, 9]) =
      match leafDispatch .colorCache [6, 0, 0, 0] with
      | .error e => .error e
      | .ok r => .ok (r, [9, 9]) :=
  capabilitySet_decode_payload_containment 0x0a .colorCache 8 [6, 0, 0, 0] [9, 9]
    (by decide) (by decide) (by decide) (by decide) (by decide)

/-- Claim C7: `DemandActive::encode` writes the descriptor-length field as
the text byte length plus 1 and writes the descriptor bytes followed by a
single 0x00 terminator; `DemandActive::decode` reads exactly
`descriptor_length` bytes and drops one trailing byte as the null
terminator, so the decoded descriptor is the slice without its last byte. -/
theorem take_length_succ_append {α : Type} (l : List α) (a : α) (t : List α) :
    (l ++ a :: t).take (l.length + 1) = l ++ [a] := by
  induction l with
  | nil => simp
  | cons x xs ih => simp [ih]

theorem demandActive_descriptor_codec :
    (∀ (p : DemandActive) (bs : List Nat), p.encode = .ok bs →
      bs.take 2 = writeU16 (p.source_descriptor.length + 1) ∧
      (bs.drop 4).take (p.source_descriptor.length + 1) = p.source_descriptor ++ [0]) ∧
    (∀ (dlen clen : Nat) (desc tail : List Nat) (pdu : DemandActive) (rem : List Nat),
      dlen < 65536 → clen < 65536 → desc.length = dlen →
      DemandActive.decode (writeU16 dlen ++ writeU16 clen ++ desc ++ tail) = .ok (pdu, rem) →
      pdu.source_descriptor = desc.dropLast) := by
  constructor
  · intro p bs he
    rw [demandActive_encode_ok_iff] at he
    obtain ⟨h1, h2, h3, sets, hs, rfl⟩ := he
    constructor
    · simp [writeU16]
    · simp only [writeU16, List.append_assoc, List.cons_append, List.nil_append,
        List.drop_succ_cons, List.drop_zero]
      exact take_length_succ_append _ _ _
  · intro dlen clen desc tail pdu rem h1 h2 hd hdec
    rw [demandActive_decode_append dlen clen desc tail h1 h2 hd] at hdec
    exact decodeTail_descriptor _ _ _ _ hdec

/-- Witness for C7: encode side at descriptor `[65, 66]` with one record,
decode side at a 2-byte descriptor slice `[65, 0]`. -/
theorem demandActive_descriptor_codec_witness :
    (([3, 0, 10, 0, 65, 66, 0, 1, 0, 0, 0, 7, 0, 6, 0, 9, 8] : List Nat).take 2 =
        writeU16 ((⟨[65, 66], [.windowActivation [9, 8]]⟩ : DemandActive).source_descriptor.length + 1) ∧
      (([3, 0, 10, 0, 65, 66, 0, 1, 0, 0, 0, 7, 0, 6, 0, 9, 8] : List Nat).drop 4).take
          ((⟨[65, 66], [.windowActivation [9, 8]]⟩ : DemandActive).source_descriptor.length + 1) =
        (⟨[65, 66], [.windowActivation [9, 8]]⟩ : DemandActive).source_descriptor ++ [0]) ∧
    (({ source_descriptor := [65], capability_sets := [] } : DemandActive).source_descriptor =
      ([65, 0] : List Nat).dropLast) :=
  ⟨demandActive_descriptor_codec.1 ⟨[65, 66], [.windowActivation [9, 8]]⟩
      [3, 0, 10, 0, 65, 66, 0, 1, 0, 0, 0, 7, 0, 6, 0, 9, 8] (by decide),
   demandActive_descriptor_codec.2 2 4 [65, 0] [0, 0, 0, 0]
      { source_descriptor := [65], capability_sets := [] } [] (by decide) (by decide)
      (by decide) (by decide)⟩

/-- Claim C8: a record header declaring a length smaller than 4 fails decode
with the invalid-capability-set-length error, regardless of how many payload
bytes follow. -/
theorem capabilitySet_decode_min_length_rejected (c : Nat) (t : CapabilitySetType)
    (L : Nat) (rest : List Nat) (hc : c < 65536)
    (ht : CapabilitySetType.fromU16 c = some t) (hlt : L < 4) :
    CapabilitySet.decode (writeU16 c ++ writeU16 L ++ rest) =
      .error (.invalidMessage "len" "invalid capability set length") :=
  capSet_decode_invalid_length c t L rest hc ht hlt

/-- Witness for C8: declared length 3 with five payload bytes present. -/
theorem capabilitySet_decode_min_length_rejected_witness :
    CapabilitySet.decode (writeU16 0x0e ++ writeU16 3 ++ [1, 2, 3, 4, 5]) =
      .error (.invalidMessage "len" "invalid capability set length") :=
  capabilitySet_decode_min_length_rejected 0x0e .font 3 [1, 2, 3, 4, 5]
    (by decide) (by decide) (by decide)

/-- Claim C9: decoding the 8 bytes `0E 00 08 00 01 00 00 00` yields the Font
record with flags 0x0001 and re-encoding reproduces the identical bytes;
encoding the ColorCache default (`ColorCache::new`, table size 0x0006)
yields exactly `0A 00 08 00 06 00 00 00`. -/
theorem font_colorCache_wire_examples :
    CapabilitySet.decode [0x0e, 0x00, 0x08, 0x00, 0x01, 0x00, 0x00, 0x00] =
      .ok (.font ⟨⟨0x0001⟩⟩, []) ∧
    CapabilitySet.encode (.font ⟨⟨0x0001⟩⟩) =
      .ok [0x0e, 0x00, 0x08, 0x00, 0x01, 0x00, 0x00, 0x00] ∧
    CapabilitySet.encode (.colorCache ColorCache.new) =
      .ok [0x0a, 0x00, 0x08, 0x00, 0x06, 0x00, 0x00, 0x00] := by
  decide

/-- Claim C10: `DemandActive::decode` accepts a descriptor-length field of
0: every successful decode of such an input yields an empty descriptor, and
an input with zero descriptor bytes (hence no null terminator anywhere in
the descriptor region) decodes successfully. -/
theorem demandActive_decode_empty_descriptor :
    (∀ (clen : Nat) (tail : List Nat) (pdu : DemandActive) (rem : List Nat),
      clen < 65536 →
      DemandActive.decode (writeU16 0 ++ writeU16 clen ++ tail) = .ok (pdu, rem) →
      pdu.source_descriptor = []) ∧
    (∀ clen : Nat, clen < 65536 →
      DemandActive.decode (writeU16 0 ++ writeU16 clen ++ [0, 0, 0, 0]) =
        .ok ({ source_descriptor := [], capability_sets := [] }, [])) := by
  constructor
  · intro clen tail pdu rem h2 hdec
    have h := demandActive_decode_append 0 clen [] tail (by omega) h2 rfl
    simp only [List.append_nil, List.nil_append, List.dropLast_nil] at h
    rw [h] at hdec
    exact decodeTail_descriptor _ _ _ _ hdec
  · intro clen h2
    have h := demandActive_decode_append 0 clen [] [0, 0, 0, 0] (by omega) h2 rfl
    simp only [List.append_nil, List.nil_append, List.dropLast_nil] at h
    rw [h]
    rfl

/-- Witness for C10 at combined-length value 4. -/
theorem demandActive_decode_empty_descriptor_witness :
    ({ source_descriptor := [], capability_sets := [] } : DemandActive).source_descriptor
        = [] ∧
      DemandActive.decode (writeU16 0 ++ writeU16 4 ++ [0, 0, 0, 0]) =
        .ok ({ source_descriptor := [], capability_sets := [] }, []) :=
  ⟨demandActive_decode_empty_descriptor.1 4 [0, 0, 0, 0]
      { source_descriptor := [], capability_sets := [] } [] (by decide) (by decide),
   demandActive_decode_empty_descriptor.2 4 (by decide)⟩

end CapSets
